import Mathlib

/-!
Verification of the core run/monitoring logic of main.py (mini test system).

The shallow embedding below translates, from the source:
- the configuration tables (TEST_SETTINGS, COMPLEXITY_SETTINGS, the dispatch
  tables of run_performance_test, lines 130-160 and 738-763);
- the global mutable state touched by one run (interrupt_flag, line 248, and
  calculation_results, lines 252-257, reset at lines 729-735);
- the bitcoin_mining_simulation counter loop (lines 467-493);
- the generic shape of the other workload loops (per-step flag check and a
  COMPLEXITY_SETTINGS lookup that can raise KeyError, lines 436-706);
- the control flow of run_performance_test (lines 713-798) as a function
  producing a termination outcome, the final flag value and the ordered list
  of monitoring events;
- analyze_results (lines 801-838);
- the sampler loop monitor_system_resources (lines 360-395) as a tick-indexed
  loop with the 60 second ceiling and 0.5 second interval;
- the wait loop of start_monitoring_performance (lines 415-429);
- a wall-clock timing model of the timed path start_monitoring (lines 398-412)
  joined by run_performance_test (line 781).

Shared state read by several threads (interrupt_flag) is modelled by explicit
value streams indexed by loop iteration, and writes are modelled as explicit
state transformers; real machine floats of the Python code are modelled by
rationals; Python dict lookups that can fail are modelled by Option.
-/

/-- TEST_SETTINGS["monitoring_interval"] = 0.5 (line 135). -/
def TEST_SETTINGS_monitoring_interval : ℚ := 1 / 2

/-- TEST_SETTINGS["max_duration"] = 60 (line 132), the absolute safety ceiling
of the sampler loop (line 388). -/
def TEST_SETTINGS_max_duration : ℚ := 60

/-- The ceiling of the sampler loop measured in sampling ticks: the loop body
advances wall-clock time by one monitoring_interval per iteration, and the
break fires once elapsed time exceeds max_duration, that is once the tick
count exceeds 60 / 0.5 = 120. -/
def max_duration_ticks : ℕ := 120

/-- COMPLEXITY_SETTINGS (lines 139-160): per-table, per-tier iteration counts
or problem sizes; an unknown table or tier key is a Python KeyError, modelled
as none. -/
def COMPLEXITY_SETTINGS (test complexity : String) : Option ℕ :=
  if test = "hash_calculation" then
    if complexity = "easy" then some 100000
    else if complexity = "medium" then some 1000000
    else if complexity = "hard" then some 10000000
    else none
  else if test = "bitcoin_mining" then
    if complexity = "easy" then some 100000
    else if complexity = "medium" then some 500000
    else if complexity = "hard" then some 2000000
    else none
  else if test = "matrix_operations" then
    if complexity = "easy" then some 100
    else if complexity = "medium" then some 500
    else if complexity = "hard" then some 1000
    else none
  else if test = "prime_numbers" then
    if complexity = "easy" then some 100000
    else if complexity = "medium" then some 1000000
    else if complexity = "hard" then some 5000000
    else none
  else none

/-- The test-specific sub-dictionary of calculation_results as populated by
bitcoin_mining_simulation (line 476): keys hashes_calculated and blocks_found.
All other workloads leave it empty, modelled by both fields zero. -/
structure TestSpecificResults where
  hashes_calculated : ℕ
  blocks_found : ℕ
deriving DecidableEq, Repr

/-- The global calculation_results dictionary (lines 252-257). -/
structure CalcResults where
  iterations_completed : ℕ
  calculations_performed : ℕ
  data_processed : ℕ
  test_specific_results : TestSpecificResults
deriving DecidableEq, Repr

/-- The initial value of calculation_results (lines 252-257), also the value
run_performance_test resets it to at entry (lines 729-735). -/
def initial_calculation_results : CalcResults :=
  { iterations_completed := 0
    calculations_performed := 0
    data_processed := 0
    test_specific_results := { hashes_calculated := 0, blocks_found := 0 } }

/-- The process-wide mutable state touched by run_performance_test at entry:
interrupt_flag (line 248) and calculation_results (line 252). -/
structure GlobalState where
  interrupt_flag : Bool
  calculation_results : CalcResults
deriving DecidableEq, Repr

/-- The entry block of run_performance_test (lines 726-735): it reassigns
calculation_results to its initial value and touches nothing else; in
particular interrupt_flag is not written. -/
def run_performance_test_entry (s : GlobalState) : GlobalState :=
  { s with calculation_results := initial_calculation_results }

/-- The load_type_to_function dictionary of run_performance_test
(lines 752-757). -/
def load_type_to_function (lt : String) : Option String :=
  if lt = "CPU_INTENSIVE" then some ("cpu_intensive")
  else if lt = "MEMORY_INTENSIVE" then some ("memory_intensive")
  else if lt = "IO_INTENSIVE" then some ("io_intensive")
  else if lt = "MIXED" then some ("mixed_load")
  else none

/-- The keys of the test_functions dictionary of run_performance_test
(lines 738-749). -/
def test_functions_keys : List String :=
  ["basic", "hash_calculation", "bitcoin_mining", "matrix_operations",
   "prime_numbers", "neural_simulation", "cpu_intensive", "memory_intensive",
   "io_intensive", "mixed_load"]

/-- The dispatch of run_performance_test (lines 760-763): a load_type present
in load_type_to_function selects the function name by itself; any other
load_type falls back to the test_type argument. -/
def select_test_function_name (test_type load_type : String) : String :=
  match load_type_to_function load_type with
  | some n => n
  | none => test_type

/-- One iteration body of bitcoin_mining_simulation (lines 481-491) at nonce i:
iterations_completed is set to i + 1, calculations_performed and
hashes_calculated are incremented, and blocks_found is incremented exactly
when the SHA-256 hex digest of the block data for nonce i starts with the two
characters 00; the digest test is a pure function of i, passed in as the
predicate hash00. -/
def bitcoin_step (hash00 : ℕ → Bool) (i : ℕ) (r : CalcResults) : CalcResults :=
  let r1 : CalcResults :=
    { r with
      iterations_completed := i + 1
      calculations_performed := r.calculations_performed + 1
      test_specific_results :=
        { r.test_specific_results with
          hashes_calculated := r.test_specific_results.hashes_calculated + 1 } }
  if hash00 i then
    { r1 with
      test_specific_results :=
        { r1.test_specific_results with
          blocks_found := r1.test_specific_results.blocks_found + 1 } }
  else r1

/-- The counted loop of bitcoin_mining_simulation (lines 478-493): k remaining
iterations starting at nonce i; each iteration first reads interrupt_flag
(line 479, modelled by the stream flag at index i) and breaks if it is set. -/
def bitcoin_loop (hash00 flag : ℕ → Bool) : ℕ → ℕ → CalcResults → CalcResults
  | 0, _, r => r
  | Nat.succ k, i, r =>
    if flag i then r
    else bitcoin_loop hash00 flag k (i + 1) (bitcoin_step hash00 i r)

/-- The reset block of bitcoin_mining_simulation (lines 474-476):
iterations_completed and calculations_performed go to zero and
test_specific_results is reassigned with both counters zero; data_processed is
not touched. -/
def bitcoin_reset (r : CalcResults) : CalcResults :=
  { r with
    iterations_completed := 0
    calculations_performed := 0
    test_specific_results := { hashes_calculated := 0, blocks_found := 0 } }

/-- bitcoin_mining_simulation (lines 467-493): look up the iteration count for
the tier (a KeyError for an unknown tier, line 473), reset the counters and
run the mining loop from nonce 0. -/
def bitcoin_mining_simulation (hash00 flag : ℕ → Bool) (complexity : String)
    (r : CalcResults) : Except String CalcResults :=
  match COMPLEXITY_SETTINGS ("bitcoin_mining") complexity with
  | none => Except.error ("KeyError")
  | some n => Except.ok (bitcoin_loop hash00 flag n 0 (bitcoin_reset r))

/-- The reference count of the claim: the number of nonces i in the interval
from 0 to n excluded whose digest predicate holds. -/
def reference_block_count (hash00 : ℕ → Bool) (n : ℕ) : ℕ :=
  ((List.range n).filter hash00).length

/-- The table of COMPLEXITY_SETTINGS each workload function reads
(lines 441, 457, 473, 501, 529, 554, 586, 607, 638, 673). -/
def workload_complexity_table (name : String) : String :=
  if name = "bitcoin_mining" then "bitcoin_mining"
  else if name = "matrix_operations" then "matrix_operations"
  else if name = "prime_numbers" then "prime_numbers"
  else if name = "memory_intensive" then "prime_numbers"
  else "hash_calculation"

/-- The number of loop iterations each workload runs once the table value n is
known: matrix_operations always loops 10 times (line 502), prime_numbers scans
the range from 2 to n (line 540), memory_intensive divides by 1000 (line 607),
io_intensive and mixed_load divide by 100 (lines 638, 673), the rest loop n
times. -/
def workload_step_count (name : String) (n : ℕ) : ℕ :=
  if name = "matrix_operations" then 10
  else if name = "prime_numbers" then n - 2
  else if name = "memory_intensive" then n / 1000
  else if name = "io_intensive" then n / 100
  else if name = "mixed_load" then n / 100
  else n

/-- The common shape of the nine non-mining workload loops (lines 436-706):
k remaining steps starting at index i; each step first reads interrupt_flag
(modelled by the stream flag) and breaks if it is set; the step body is pure
computation that does not touch calculation_results, but may raise an
unrecoverable runtime error (for example numpy LinAlgError from eigvals at
line 519, or an OSError from the file loops), modelled by the oracle
step_fault giving the error message of a step that raises. -/
def run_steps (step_fault : ℕ → Option String) (flag : ℕ → Bool) :
    ℕ → ℕ → Except String Unit
  | 0, _ => Except.ok ()
  | Nat.succ k, i =>
    if flag i then Except.ok ()
    else
      match step_fault i with
      | some msg => Except.error msg
      | none => run_steps step_fault flag k (i + 1)

/-- The selected workload function invoked by run_performance_test (line 778):
bitcoin_mining keeps its own counter loop; every other workload looks up its
COMPLEXITY_SETTINGS table first (a KeyError for an unknown tier, before any
step runs) and then runs its per-step loop leaving calculation_results as it
was. -/
def run_workload (name cx : String) (hash00 : ℕ → Bool)
    (step_fault : ℕ → Option String) (flag : ℕ → Bool) (r : CalcResults) :
    Except String CalcResults :=
  if name = "bitcoin_mining" then
    bitcoin_mining_simulation hash00 flag cx r
  else
    match COMPLEXITY_SETTINGS (workload_complexity_table name) cx with
    | none => Except.error ("KeyError")
    | some n =>
      match run_steps step_fault flag (workload_step_count name n) 0 with
      | Except.error msg => Except.error msg
      | Except.ok _ => Except.ok r

/-- How one call of run_performance_test (lines 713-798) ends. -/
inductive RunTerm
  /-- The normal return of the results dictionary (lines 794-798), carrying
  the final calculation_results. -/
  | returns (r : CalcResults)
  /-- The early return of the error dictionary for an unknown function name
  (lines 783-784). -/
  | returns_config_error (name : String)
  /-- An exception raised by the workload call at line 778 propagates out of
  run_performance_test uncaught. -/
  | raises (msg : String)
  /-- The join of the monitoring thread at line 781 never completes. -/
  | diverges_at_join
deriving DecidableEq, Repr

/-- The monitoring-thread events of one run, in program order. -/
inductive RunEvent
  /-- monitor_thread.start() at line 775. -/
  | monitor_started
  /-- monitor_thread.join() at line 781 completed. -/
  | monitor_joined
deriving DecidableEq, Repr

/-- The observable outcome of one call of run_performance_test: how it ends,
the value of interrupt_flag afterwards, and the ordered monitoring events. -/
structure RunOutcome where
  term : RunTerm
  interrupt_flag : Bool
  events : List RunEvent
deriving DecidableEq, Repr

/-- Control flow of run_performance_test (lines 713-798) in an environment
with no external interrupt, starting from interrupt_flag = flag0 (the code
never resets the flag at entry, line 726-735). The dispatched name is checked
against test_functions (line 765); if unknown, the error dictionary is
returned before the monitoring thread is started. Otherwise the monitoring
thread is started (line 775), the workload runs with the flag stream constant
at flag0 (no writer flips it during the workload in this environment), and:
an exception from the workload propagates, skipping the join, leaving the
flag untouched; on normal workload return in timed mode the join returns
after start_monitoring has slept the duration and raised the flag (line 410);
on normal workload return in performance mode the join completes only if the
flag is already set, because start_monitoring_performance waits for the flag
(line 426) and nothing on this path raises it - with flag0 false the join
never completes (see perf_wait_exit_stuck). -/
def run_performance_test_model (test_type load_type cx : String)
    (performance_mode : Bool) (hash00 : ℕ → Bool)
    (step_fault : ℕ → Option String) (flag0 : Bool) : RunOutcome :=
  if select_test_function_name test_type load_type ∈ test_functions_keys then
    match run_workload (select_test_function_name test_type load_type) cx
        hash00 step_fault (fun _ => flag0) initial_calculation_results with
    | Except.error msg =>
      { term := RunTerm.raises msg
        interrupt_flag := flag0
        events := [RunEvent.monitor_started] }
    | Except.ok r =>
      if performance_mode then
        if flag0 then
          { term := RunTerm.returns r
            interrupt_flag := flag0
            events := [RunEvent.monitor_started, RunEvent.monitor_joined] }
        else
          { term := RunTerm.diverges_at_join
            interrupt_flag := flag0
            events := [RunEvent.monitor_started] }
      else
        { term := RunTerm.returns r
          interrupt_flag := true
          events := [RunEvent.monitor_started, RunEvent.monitor_joined] }
  else
    { term :=
        RunTerm.returns_config_error (select_test_function_name test_type load_type)
      interrupt_flag := flag0
      events := [] }

/-- The global monitoring_data dictionary as filled by monitor_system_resources
(lines 391-394): the four per-tick sample lists. A sampler that never got a
tick leaves all four lists empty. -/
structure MonitoringData where
  cpu : List ℚ
  mem : List ℚ
  cpu_temp : List ℚ
  gpu_temp : List ℚ
deriving DecidableEq, Repr

/-- The statistics dictionary built by analyze_results (lines 818-826). -/
structure AnalysisResults where
  duration : ℚ
  cpu_usage_avg : ℚ
  cpu_usage_peak : ℚ
  memory_usage_avg : ℚ
  memory_usage_peak : ℚ
  cpu_temperature_avg : ℚ
  gpu_temperature_avg : ℚ
deriving DecidableEq, Repr

/-- np.mean of a list of readings (sum over length). -/
def list_mean (l : List ℚ) : ℚ := l.sum / l.length

/-- np.max of a nonempty list of readings; analyze_results only applies it to
a nonempty cpu list, and mem has the same length as cpu. -/
def list_max : List ℚ → ℚ
  | [] => 0
  | x :: xs => xs.foldl max x

/-- analyze_results (lines 801-838): an empty cpu sample list (the guard at
line 806, Python truthiness of monitoring_data.get) returns the error
dictionary whose message reads, in the source, no monitoring data; otherwise
the mean and peak statistics are computed, with the temperature averages
falling back to 0 when no sensor ever reported (lines 815-816). -/
def analyze_results (md : MonitoringData) (duration : ℚ) :
    Except String AnalysisResults :=
  if md.cpu.isEmpty then Except.error ("no monitoring data")
  else
    Except.ok
      { duration := duration
        cpu_usage_avg := list_mean md.cpu
        cpu_usage_peak := list_max md.cpu
        memory_usage_avg := list_mean md.mem
        memory_usage_peak := list_max md.mem
        cpu_temperature_avg :=
          if md.cpu_temp.isEmpty then 0 else list_mean md.cpu_temp
        gpu_temperature_avg :=
          if md.gpu_temp.isEmpty then 0 else list_mean md.gpu_temp }

/-- Completion time of Thread.join when the caller reaches the join at time
t_caller and the joined thread finishes at time t_thread_end: the later of the
two. -/
def join_completion_time (t_caller t_thread_end : ℚ) : ℚ :=
  max t_caller t_thread_end

/-- Finish time of the monitoring thread on the timed path: start_monitoring
(lines 398-412) begins at t_begin, sleeps the full configured duration
(line 408), raises interrupt_flag (line 410), then joins the inner sampler
thread, which takes inner_join_delay more time (the sampler observes the flag
within one interval); its thread ends at t_begin + dur + inner_join_delay. -/
def start_monitoring_end_time (t_begin dur inner_join_delay : ℚ) : ℚ :=
  t_begin + dur + inner_join_delay

/-- actual_duration on the timed path of run_performance_test: start_time is
recorded at t0 (line 726), the monitoring thread is started no earlier, the
workload finishes at t_workload_end, monitor_thread.join() at line 781
completes at the later of that and the monitoring thread finish time, and
actual_duration is measured at line 786. -/
def timed_actual_duration (t0 t_begin t_workload_end dur inner_join_delay : ℚ) :
    ℚ :=
  join_completion_time t_workload_end
    (start_monitoring_end_time t_begin dur inner_join_delay) - t0

/-- The sampler loop of monitor_system_resources (lines 370-389) in sampling
ticks: at tick t the loop condition reads interrupt_flag (modelled by the
stream flag); if set, the loop exits at t. Otherwise one sample is captured
(the non-blocking psutil reads, cost folded into the tick), the loop sleeps
one monitoring_interval, advancing to tick t + 1, and the ceiling check at
line 388 breaks once elapsed time exceeds max_duration, that is once the tick
count exceeds max_duration_ticks. The returned value is the tick at which the
loop has exited. -/
def monitor_loop_exit (flag : ℕ → Bool) (t : ℕ) : ℕ :=
  if flag t then t
  else if h : max_duration_ticks < t + 1 then t + 1
  else monitor_loop_exit flag (t + 1)
termination_by max_duration_ticks + 1 - t
decreasing_by omega

/-- The wait loop of start_monitoring_performance (lines 426-427): while
interrupt_flag is not set, sleep 0.1 seconds. Given fuel remaining checks
starting at check index t, return the index at which the loop observed the
raised flag, or none if the flag was never observed within the fuel. The loop
has no ceiling: a run of the real loop terminates exactly when some fuel
bound returns some index. -/
def perf_wait_exit (flag : ℕ → Bool) : ℕ → ℕ → Option ℕ
  | 0, _ => none
  | Nat.succ fuel, t =>
    if flag t then some t else perf_wait_exit flag fuel (t + 1)

/-- The operations of one test run that read or write interrupt_flag, each
with the source location of its flag access. -/
inductive RunOp
  /-- signal_handler (lines 1201-1209): sets interrupt_flag to True. -/
  | sigint_handler
  /-- start_monitoring after its sleep (lines 409-410): sets interrupt_flag
  to True. -/
  | timed_governor_raise
  /-- one iteration of the sampler loop (line 370): reads the flag, appends
  samples, writes nothing to the flag. -/
  | sampler_tick
  /-- one per-step flag check inside a workload loop (lines 443, 459, 479,
  503, 541, 564, 589, 614, 645, 680): read only. -/
  | workload_step_check
  /-- one iteration of the start_monitoring_performance wait loop (line 426):
  read only. -/
  | perf_wait_check
  /-- the entry reset of calculation_results in run_performance_test
  (lines 729-735): does not touch the flag. -/
  | reset_calculation_results
deriving DecidableEq, Repr

/-- The effect of each run operation on interrupt_flag: the two writers
(lines 410 and 1207) store True unconditionally; every other operation leaves
the flag unchanged. No statement executed during a run stores False. -/
def op_flag : RunOp → Bool → Bool
  | RunOp.sigint_handler, _ => true
  | RunOp.timed_governor_raise, _ => true
  | RunOp.sampler_tick, b => b
  | RunOp.workload_step_check, b => b
  | RunOp.perf_wait_check, b => b
  | RunOp.reset_calculation_results, b => b

/-- The value of interrupt_flag after an interleaved sequence of run
operations, starting from value b; each operation reads the value left by the
previous one. -/
def run_flag (ops : List RunOp) (b : Bool) : Bool :=
  ops.foldl (fun x op => op_flag op x) b

/-- The tick ceiling times the interval is exactly the configured ceiling. -/
theorem max_duration_ticks_spec :
    (max_duration_ticks : ℚ) * TEST_SETTINGS_monitoring_interval
      = TEST_SETTINGS_max_duration := by
  norm_num [max_duration_ticks, TEST_SETTINGS_monitoring_interval,
    TEST_SETTINGS_max_duration]

/-- With a flag stream that is never raised, no fuel bound makes the wait loop
of start_monitoring_performance observe a stop: the loop runs forever. -/
theorem perf_wait_exit_stuck :
    ∀ (fuel t : ℕ), perf_wait_exit (fun _ => false) fuel t = none := by
  intro fuel
  induction fuel with
  | zero => intro t; rfl
  | succ k ih => intro t; simpa [perf_wait_exit] using ih (t + 1)

/-- Helper: from any start tick not past the ceiling, the sampler loop exits
no later than one tick past the ceiling. -/
theorem monitor_loop_exit_le (flag : ℕ → Bool) :
    ∀ (k t : ℕ), max_duration_ticks + 1 - t ≤ k → t ≤ max_duration_ticks →
      monitor_loop_exit flag t ≤ max_duration_ticks + 1 := by
  intro k
  induction k with
  | zero => intro t h1 h2; omega
  | succ k ih =>
    intro t h1 h2
    rw [monitor_loop_exit]
    split
    · omega
    · split
      · omega
      · next hc => exact ih (t + 1) (by omega) (by omega)

/-- Helper: the effect of one bitcoin mining step on blocks_found. -/
theorem bitcoin_step_blocks_found (hash00 : ℕ → Bool) (i : ℕ)
    (r : CalcResults) :
    (bitcoin_step hash00 i r).test_specific_results.blocks_found
      = r.test_specific_results.blocks_found + (if hash00 i then 1 else 0) := by
  by_cases h : hash00 i <;> simp [bitcoin_step, h]

/-- Helper: with the flag never raised, the mining loop over k nonces starting
at i adds to blocks_found exactly the number of nonces in that window whose
digest predicate holds. -/
theorem bitcoin_loop_blocks_found (hash00 : ℕ → Bool) :
    ∀ (k i : ℕ) (r : CalcResults),
      (bitcoin_loop hash00 (fun _ => false) k i r).test_specific_results.blocks_found
        = r.test_specific_results.blocks_found
          + ((List.range' i k).filter hash00).length := by
  intro k
  induction k with
  | zero => intro i r; simp [bitcoin_loop]
  | succ k ih =>
    intro i r
    rw [bitcoin_loop, List.range']
    simp only [Bool.false_eq_true, if_false, List.filter_cons]
    rw [ih (i + 1) (bitcoin_step hash00 i r), bitcoin_step_blocks_found]
    by_cases h : hash00 i <;> simp [h]
    omega

/-- Helper: a workload whose COMPLEXITY_SETTINGS table has no entry for the
requested tier raises a KeyError before running any step. -/
theorem run_workload_unknown_complexity (name cx : String) (hash00 : ℕ → Bool)
    (step_fault : ℕ → Option String) (flag : ℕ → Bool) (r : CalcResults)
    (h : COMPLEXITY_SETTINGS (workload_complexity_table name) cx = none) :
    run_workload name cx hash00 step_fault flag r = Except.error ("KeyError") := by
  unfold run_workload
  by_cases hb : name = "bitcoin_mining"
  · subst hb
    rw [if_pos rfl]
    unfold bitcoin_mining_simulation
    have ht : workload_complexity_table "bitcoin_mining" = "bitcoin_mining" := rfl
    rw [ht] at h
    rw [h]
  · rw [if_neg hb, h]

/-- C2: for every run whose sample buffer is empty (the sampler recorded zero
ticks of CPU data), analyze_results returns the explicit no-monitoring-data
error condition, and never returns a statistics record (in particular no
record of fabricated zeros). -/
theorem C2_empty_buffer_error (md : MonitoringData) (duration : ℚ)
    (h : md.cpu = []) :
    analyze_results md duration = Except.error ("no monitoring data")
    ∧ ∀ st : AnalysisResults, analyze_results md duration ≠ Except.ok st := by
  have he : md.cpu.isEmpty = true := by simp [h]
  refine ⟨by simp [analyze_results, he], ?_⟩
  intro st hst
  simp [analyze_results, he] at hst

/-- Witness for C2 at the concrete empty sample buffer. -/
theorem C2_empty_buffer_error_witness :
    (MonitoringData.mk [] [] [] []).cpu = ([] : List ℚ)
    ∧ analyze_results (MonitoringData.mk [] [] [] []) 0
        = Except.error ("no monitoring data") :=
  ⟨rfl, (C2_empty_buffer_error (MonitoringData.mk [] [] [] []) 0 rfl).1⟩

/-- C3: in Timed Mode the actual_duration measured by run_performance_test is
at least the configured duration, whatever the workload finish time: the join
of the monitoring thread waits for start_monitoring, which sleeps the full
duration before raising the flag and joining the sampler. Hypotheses: the
monitoring thread begins no earlier than start_time is recorded, and the
inner sampler join takes nonnegative time. -/
theorem C3_timed_duration_lower_bound
    (t0 t_begin t_workload_end dur inner_join_delay : ℚ)
    (h_begin : t0 ≤ t_begin) (h_delay : 0 ≤ inner_join_delay) :
    dur ≤ timed_actual_duration t0 t_begin t_workload_end dur inner_join_delay := by
  unfold timed_actual_duration join_completion_time start_monitoring_end_time
  have h := le_max_right t_workload_end (t_begin + dur + inner_join_delay)
  linarith

/-- Witness for C3 at concrete times: the run starts at 0, the monitoring
thread at 1, the workload finishes early at 5, the configured duration is
30. -/
theorem C3_timed_duration_lower_bound_witness :
    ((0 : ℚ) ≤ 1 ∧ (0 : ℚ) ≤ 0)
    ∧ (30 : ℚ) ≤ timed_actual_duration 0 1 5 30 0 :=
  ⟨⟨by norm_num, le_refl 0⟩,
   C3_timed_duration_lower_bound 0 1 5 30 0 (by norm_num) (le_refl 0)⟩

/-- C5 counterexample: run_performance_test does not start from a fresh
signal. With interrupt_flag already raised by a previous run, the entry block
of run_performance_test leaves it raised: the signal does not read false at
entry, contradicting the claim. -/
theorem C5_counterexample :
    (run_performance_test_entry
        { interrupt_flag := true
          calculation_results := initial_calculation_results }).interrupt_flag
      = true := rfl

/-- C5 amended: the entry block of run_performance_test resets only
calculation_results; interrupt_flag keeps whatever value the process-wide
flag already has, so a raise in one run leaks into the next. -/
theorem C5_no_reset_at_entry :
    ∀ s : GlobalState,
      (run_performance_test_entry s).interrupt_flag = s.interrupt_flag
      ∧ (run_performance_test_entry s).calculation_results
          = initial_calculation_results :=
  fun _ => ⟨rfl, rfl⟩

/-- C6: once interrupt_flag is raised, any interleaving of the operations of
one run (the two raisers, the sampler ticks, the per-step workload checks,
the performance wait checks and the counter reset) leaves it raised: every
subsequent read returns true and no operation resets it to false. -/
theorem C6_flag_never_reset : ∀ ops : List RunOp, run_flag ops true = true := by
  intro ops
  induction ops with
  | nil => rfl
  | cons op ops ih =>
    have hop : op_flag op true = true := by cases op <;> rfl
    simp only [run_flag, List.foldl_cons] at ih ⊢
    rw [hop]
    exact ih

/-- C10: dispatch precedence of run_performance_test. For the four intensive
load types the executed function name is fixed by load_type alone, whatever
test_type says; for every other load_type the name is exactly test_type. -/
theorem C10_dispatch_precedence :
    (∀ tt : String,
        select_test_function_name tt "CPU_INTENSIVE" = "cpu_intensive"
      ∧ select_test_function_name tt "MEMORY_INTENSIVE" = "memory_intensive"
      ∧ select_test_function_name tt "IO_INTENSIVE" = "io_intensive"
      ∧ select_test_function_name tt "MIXED" = "mixed_load")
    ∧ ∀ tt lt : String,
        lt ∉ (["CPU_INTENSIVE", "MEMORY_INTENSIVE", "IO_INTENSIVE",
               "MIXED"] : List String) →
        select_test_function_name tt lt = tt := by
  refine ⟨fun tt => ⟨rfl, rfl, rfl, rfl⟩, ?_⟩
  intro tt lt h
  simp only [List.mem_cons, List.not_mem_nil, or_false, not_or] at h
  obtain ⟨h1, h2, h3, h4⟩ := h
  simp [select_test_function_name, load_type_to_function, h1, h2, h3, h4]

/-- Witness for C10: with load_type MIXED the test_type argument is ignored;
with load_type GPU the test_type argument alone selects the function. -/
theorem C10_dispatch_precedence_witness :
    select_test_function_name "basic" "MIXED" = "mixed_load"
    ∧ select_test_function_name "neural_simulation" "GPU" = "neural_simulation" :=
  ⟨(C10_dispatch_precedence.1 "basic").2.2.2,
   C10_dispatch_precedence.2 "neural_simulation" "GPU" (by decide)⟩

/-- C7: for an uninterrupted bitcoin_mining run over the configured iteration
count n, the reported blocks_found equals the recomputed reference count of
the nonces in the interval from 0 to n excluded whose digest predicate holds
(the digest hex representation starts with two zero characters). -/
theorem C7_blocks_found_matches_reference (hash00 flag : ℕ → Bool)
    (cx : String) (n : ℕ) (r : CalcResults)
    (hn : COMPLEXITY_SETTINGS ("bitcoin_mining") cx = some n)
    (hflag : ∀ i, flag i = false) :
    (bitcoin_mining_simulation hash00 flag cx r).map
        (fun out => out.test_specific_results.blocks_found)
      = Except.ok (reference_block_count hash00 n) := by
  have hf : flag = fun _ => false := funext hflag
  subst hf
  unfold bitcoin_mining_simulation
  rw [hn]
  simp only [Except.map, bitcoin_loop_blocks_found, bitcoin_reset,
    reference_block_count, List.range_eq_range', Nat.zero_add]

/-- Witness for C7 at the concrete easy tier and a sample digest predicate. -/
theorem C7_blocks_found_matches_reference_witness :
    COMPLEXITY_SETTINGS ("bitcoin_mining") "easy" = some 100000
    ∧ (bitcoin_mining_simulation (fun i => decide (i % 7 = 0)) (fun _ => false)
          "easy" initial_calculation_results).map
        (fun out => out.test_specific_results.blocks_found)
      = Except.ok (reference_block_count (fun i => decide (i % 7 = 0)) 100000) :=
  ⟨rfl, C7_blocks_found_matches_reference (fun i => decide (i % 7 = 0))
    (fun _ => false) "easy" 100000 initial_calculation_results rfl
    (fun _ => rfl)⟩

/-- C9: the sampler loop never runs unbounded: for every flag stream,
including one where the flag is never raised, the loop exits by one tick past
the ceiling, so its elapsed time is at most max_duration plus one
monitoring_interval. -/
theorem C9_sampler_loop_bounded :
    ∀ flag : ℕ → Bool,
      monitor_loop_exit flag 0 ≤ max_duration_ticks + 1
      ∧ (monitor_loop_exit flag 0 : ℚ) * TEST_SETTINGS_monitoring_interval
          ≤ TEST_SETTINGS_max_duration + TEST_SETTINGS_monitoring_interval := by
  intro flag
  have h := monitor_loop_exit_le flag (max_duration_ticks + 1) 0 (by omega)
    (by omega)
  refine ⟨h, ?_⟩
  have h2 : (monitor_loop_exit flag 0 : ℚ) ≤ 121 := by
    calc (monitor_loop_exit flag 0 : ℚ)
        ≤ ((max_duration_ticks + 1 : ℕ) : ℚ) := by exact_mod_cast h
      _ = 121 := by norm_num [max_duration_ticks]
  simp only [TEST_SETTINGS_monitoring_interval, TEST_SETTINGS_max_duration]
  linarith

/-- C1 (code defect): in Performance Mode the orchestrator never raises the
cancellation signal after the workload completes. At the failing input (the
bitcoin_mining workload at the easy tier completing all its iterations, no
external interrupt, flag initially down) the modelled run_performance_test
reaches monitor_thread.join and diverges there, because the wait loop of
start_monitoring_performance never observes a raised flag under any fuel
bound - contradicting the claim (and the comment at line 425 of the source,
which says the main thread will set the flag). -/
theorem C1_performance_mode_never_returns :
    (run_performance_test_model "bitcoin_mining" "CPU" "easy" true
        (fun _ => false) (fun _ => none) false).term = RunTerm.diverges_at_join
    ∧ ∀ (fuel t : ℕ), perf_wait_exit (fun _ => false) fuel t = none :=
  ⟨rfl, perf_wait_exit_stuck⟩

/-- The step-fault oracle of a workload whose very first step raises an
unrecoverable numeric error (for example numpy LinAlgError from the eigvals
call at line 519). -/
def fault_at_zero : ℕ → Option String :=
  fun i => if i = 0 then some ("LinAlgError") else none

/-- C4 counterexample: a matrix_operations run whose first step raises an
unrecoverable error. The exception propagates out of run_performance_test,
but the cancellation signal is NOT raised (interrupt_flag is still false
afterwards), contradicting the claim that the signal is raised so the sampler
can terminate cleanly; and the raising termination carries no counters, so no
partial counters are returned alongside the error. -/
theorem C4_counterexample :
    (run_performance_test_model "matrix_operations" "CPU" "medium" false
        (fun _ => false) fault_at_zero false).term
      = RunTerm.raises ("LinAlgError")
    ∧ (run_performance_test_model "matrix_operations" "CPU" "medium" false
        (fun _ => false) fault_at_zero false).interrupt_flag = false :=
  ⟨rfl, rfl⟩

/-- C4 amended: when the workload call raises an unrecoverable error, the
exception propagates out of run_performance_test and aborts the run, but the
cancellation signal is left exactly as it was (nothing on this path raises
it), the monitoring thread is never joined, and no result record - hence no
counters - is returned alongside the error; the partial counters survive only
in the process-global calculation_results. -/
theorem C4_workload_fault_behavior (tt lt cx : String) (perf : Bool)
    (hash00 : ℕ → Bool) (step_fault : ℕ → Option String) (flag0 : Bool)
    (msg : String)
    (hname : select_test_function_name tt lt ∈ test_functions_keys)
    (hfault : run_workload (select_test_function_name tt lt) cx hash00
        step_fault (fun _ => flag0) initial_calculation_results
      = Except.error msg) :
    run_performance_test_model tt lt cx perf hash00 step_fault flag0
      = { term := RunTerm.raises msg
          interrupt_flag := flag0
          events := [RunEvent.monitor_started] } := by
  unfold run_performance_test_model
  rw [if_pos hname, hfault]

/-- Witness for C4 amended: a prime_numbers run at the easy tier whose first
step raises, with the flag initially down. -/
theorem C4_workload_fault_behavior_witness :
    run_performance_test_model "prime_numbers" "CPU" "easy" false
        (fun _ => false) fault_at_zero false
      = { term := RunTerm.raises ("LinAlgError")
          interrupt_flag := false
          events := [RunEvent.monitor_started] } :=
  C4_workload_fault_behavior "prime_numbers" "CPU" "easy" false
    (fun _ => false) fault_at_zero false ("LinAlgError") (by decide) (by rfl)

/-- C8 counterexample: an unknown complexity key does not surface before the
run starts. For a known workload kind with the unknown tier key extreme, the
modelled run_performance_test has already started the monitoring thread when
the workload's complexity lookup raises its KeyError - contradicting the
claim that the error is returned before launching the monitoring thread and
before any workload step. -/
theorem C8_counterexample :
    (run_performance_test_model "hash_calculation" "CPU" "extreme" false
        (fun _ => false) (fun _ => none) false).events
      = [RunEvent.monitor_started]
    ∧ (run_performance_test_model "hash_calculation" "CPU" "extreme" false
        (fun _ => false) (fun _ => none) false).term
      = RunTerm.raises ("KeyError") :=
  ⟨rfl, rfl⟩

/-- C8 amended: only an unknown workload kind is surfaced immediately - the
error dictionary is returned with no monitoring event and no workload step.
An unknown complexity key is not checked up front: the monitoring thread is
started first, and the workload raises a KeyError that propagates out of
run_performance_test. -/
theorem C8_config_error_surfacing :
    (∀ (tt lt cx : String) (perf : Bool) (hash00 : ℕ → Bool)
        (step_fault : ℕ → Option String) (flag0 : Bool),
        select_test_function_name tt lt ∉ test_functions_keys →
        run_performance_test_model tt lt cx perf hash00 step_fault flag0
          = { term := RunTerm.returns_config_error
                (select_test_function_name tt lt)
              interrupt_flag := flag0
              events := [] })
    ∧ ∀ (tt lt cx : String) (perf : Bool) (hash00 : ℕ → Bool)
        (step_fault : ℕ → Option String) (flag0 : Bool),
        select_test_function_name tt lt ∈ test_functions_keys →
        COMPLEXITY_SETTINGS
            (workload_complexity_table (select_test_function_name tt lt)) cx
          = none →
        (run_performance_test_model tt lt cx perf hash00 step_fault flag0).term
            = RunTerm.raises ("KeyError")
        ∧ (run_performance_test_model tt lt cx perf hash00 step_fault
              flag0).events
            = [RunEvent.monitor_started] := by
  constructor
  · intro tt lt cx perf hash00 step_fault flag0 hname
    unfold run_performance_test_model
    rw [if_neg hname]
  · intro tt lt cx perf hash00 step_fault flag0 hname hcx
    have hw := run_workload_unknown_complexity (select_test_function_name tt lt)
      cx hash00 step_fault (fun _ => flag0) initial_calculation_results hcx
    constructor
    · unfold run_performance_test_model
      rw [if_pos hname, hw]
    · unfold run_performance_test_model
      rw [if_pos hname, hw]

/-- Witness for C8 amended: an unknown kind returns the error dictionary with
no monitoring event; a known kind with an unknown tier raises a KeyError
after the monitoring thread has started. -/
theorem C8_config_error_surfacing_witness :
    run_performance_test_model "unknown_kind" "CPU" "easy" false
        (fun _ => false) (fun _ => none) false
      = { term := RunTerm.returns_config_error ("unknown_kind")
          interrupt_flag := false
          events := [] }
    ∧ (run_performance_test_model "basic" "GPU" "extreme" true
        (fun _ => false) (fun _ => none) false).term
      = RunTerm.raises ("KeyError") :=
  ⟨C8_config_error_surfacing.1 "unknown_kind" "CPU" "easy" false
      (fun _ => false) (fun _ => none) false (by decide),
   (C8_config_error_surfacing.2 "basic" "GPU" "extreme" true
      (fun _ => false) (fun _ => none) false (by decide) (by decide)).1⟩
